import Mathlib

/-!
Verification of the telemetry emission demo program (`src/main.go`) of the
clickstack-client repository.  The Go source is shallowly embedded below:
pure configuration logic is translated to Lean functions, the stateful
span/metric lifecycle is translated to explicit state passing, and the
behaviour of the external gRPC/OTel SDK calls that the program delegates to
is modelled from their documented contract where the repository's own code
only invokes them.
-/

namespace ClickstackClient

/-! ## Configuration: endpoint resolution (`main`, src/main.go lines 30-42) -/

/-- `otelCollectorEndpoint` constant from src/main.go line 34. -/
def otelCollectorEndpoint : String := "localhost:4317"

/-- Embeds src/main.go lines 39-42: `endpoint := os.Getenv(...)`, and if the
result is the empty string, the compiled-in default is used.  `Os.Getenv`
returns `""` both when the variable is unset and when it is set empty, so the
environment is modelled as the string the call returns. -/
def resolveEndpoint (envValue : String) : String :=
  if envValue = "" then otelCollectorEndpoint else envValue

/-- The three provider setups in `main` (lines 51, 62, 73) each receive the
single `endpoint` local resolved once at lines 39-42.  This function returns
the endpoint handed to (trace, log, metric) provider construction. -/
def providerEndpoints (envValue : String) : String × String × String :=
  let endpoint := resolveEndpoint envValue
  (endpoint, endpoint, endpoint)

/-! ## Transport dialing and initialization (`setupTraceProvider` etc.)

`setupTraceProvider` / `setupLogProvider` / `setupMetricProvider`
(src/main.go lines 199-271) each call `grpc.DialContext(ctx, endpoint,
grpc.WithBlock())`.  With `WithBlock`, the dial blocks until the connection
is established or the supplied context expires; on a context with a bounded
deadline against an unreachable endpoint it returns an error once the
deadline passes, and on a context without a deadline it blocks forever.
That external-call contract is modelled by `grpcDialBlocking`; the repo's
own wrapping of its result is translated directly. -/

/-- Outcome of a blocking dial attempt: either it completes (with the time
elapsed and success or error), or it never returns. -/
inductive DialOutcome where
  | completed (elapsed : Nat) (ok : Bool)
  | hangs
deriving DecidableEq, Repr

/-- Model of `grpc.DialContext` with `grpc.WithBlock()` against an endpoint
that is reachable or not, under an optional context deadline `deadline`
(time units after the call).  Reachable endpoints connect immediately;
unreachable endpoints make the blocking dial wait until the deadline and
fail, or hang forever when the context has no deadline. -/
def grpcDialBlocking (reachable : Bool) (deadline : Option Nat) : DialOutcome :=
  if reachable then .completed 0 true
  else
    match deadline with
    | some t => .completed t false
    | none => .hangs

/-- Result of one provider setup: an initialization error, a working
provider (represented by the endpoint it is bound to), or no return at all
(the dial hung). -/
inductive SetupResult where
  | initError (elapsed : Nat)
  | ok (endpoint : String)
  | hangs
deriving DecidableEq, Repr

/-- Embeds `setupTraceProvider` (src/main.go lines 199-222): dial the
endpoint with a blocking gRPC connect and return a wrapped error if the
connection cannot be established, otherwise the provider.  The exporter
construction on an established connection does not fail in this model
(`otlptracegrpc.New` on a live connection).  `setupLogProvider` and
`setupMetricProvider` (lines 224-271) have identical structure. -/
def setupTraceProvider (reachable : Bool) (deadline : Option Nat)
    (endpoint : String) : SetupResult :=
  match grpcDialBlocking reachable deadline with
  | .completed _ true => .ok endpoint
  | .completed e false => .initError e
  | .hangs => .hangs

/-- How `main` reacts to the trace-provider setup (src/main.go lines 51-54):
`log.Fatalf` aborts the process on error, so startup continues only on
success; if the setup never returns, neither does `main`. -/
inductive StartupOutcome where
  | aborted (elapsed : Nat)
  | proceeded (endpoint : String)
  | hung
deriving DecidableEq, Repr

/-- Embeds the startup path of `main` through the first provider setup
(src/main.go lines 51-54): on a setup error the process dies via
`log.Fatalf` before any telemetry is emitted. -/
def mainStartup (reachable : Bool) (deadline : Option Nat)
    (envValue : String) : StartupOutcome :=
  match setupTraceProvider reachable deadline (resolveEndpoint envValue) with
  | .initError e => .aborted e
  | .ok ep => .proceeded ep
  | .hangs => .hung

/-- Telemetry is emitted only on the `proceeded` path of `main`; an aborted
or hung startup emits nothing. -/
def telemetryEmittedAfterStartup : StartupOutcome → Bool
  | .proceeded _ => true
  | _ => false

/-! ## Attributes, spans, and the trace state (`tracer.Start` / `span.End`)

Telemetry attribute values in the source are strings, ints and bools
(`attribute.String`, `attribute.Int`).  Span timestamps are modelled as a
monotone `Nat` clock in milliseconds; `time.Sleep` advances it. -/

/-- A telemetry attribute value (`attribute.String` / `attribute.Int` /
`attribute.Bool` in the source). -/
inductive AttrValue where
  | str (s : String)
  | int (i : Int)
  | boolV (b : Bool)
deriving DecidableEq, Repr

/-- One key-value attribute. -/
abbrev Attr := String × AttrValue

/-- An attribute set as the source builds it: an ordered list of key-value
pairs passed to one emission call. -/
abbrev AttrSet := List Attr

/-- Shorthand for `attribute.String k v`. -/
def strA (k v : String) : Attr := (k, .str v)

/-- Shorthand for `attribute.Int k i` (numeric payloads such as durations
are embedded as exact integers in milliseconds). -/
def intA (k : String) (i : Int) : Attr := (k, .int i)

/-- Span status as set by `span.SetStatus` (codes.Ok / codes.Error with a
message); `unset` is the SDK default for a new span. -/
inductive SpanStatus where
  | unset
  | statusOk (msg : String)
  | statusError (msg : String)
deriving DecidableEq, Repr

/-- One span as produced by `tracer.Start`: name, parent (the span active
in the context supplied to `Start`, identified by its index in creation
order), start/end timestamps, attributes and status. -/
structure Span where
  name : String
  parent : Option Nat
  startTime : Nat
  endTime : Option Nat
  attrs : AttrSet
  status : SpanStatus
deriving DecidableEq, Repr

/-- The tracing state of one process run: the current wall clock and every
span created so far, in creation order (a span's id is its index). -/
structure TraceState where
  clock : Nat
  spans : List Span
deriving DecidableEq, Repr

/-- Process start: clock at zero, no spans. -/
def TraceState.init : TraceState := ⟨0, []⟩

/-- `time.Sleep(d)` / wall-clock progress: the clock only moves forward. -/
def TraceState.tick (st : TraceState) (d : Nat) : TraceState :=
  { st with clock := st.clock + d }

/-- The span freshly created by `tracer.Start` in state `st`: parented to
the span active in the supplied context, started at the current clock, in
the `active` state (no end timestamp, status unset). -/
def newSpanOf (st : TraceState) (ctx : Option Nat) (name : String)
    (attrs : AttrSet) : Span :=
  { name := name, parent := ctx, startTime := st.clock,
    endTime := none, attrs := attrs, status := .unset }

/-- Embeds `tracer.Start(ctx, name, WithAttributes(attrs))` (e.g.
src/main.go lines 143-148): creates a span in the `active` state whose
parent is the span carried by `ctx` (none for a root), whose start
timestamp is the current clock, and returns the new context (carrying the
new span as active) together with the new span's id. -/
def startSpan (st : TraceState) (ctx : Option Nat) (name : String)
    (attrs : AttrSet) : TraceState × Option Nat × Nat :=
  let id := st.spans.length
  ({ st with spans := st.spans ++ [newSpanOf st ctx name attrs] },
   some id, id)

/-- Replaces the span with id `id` by `f` applied to it; out-of-range ids
leave the state unchanged.  Common shape of `span.End`,
`span.SetAttributes` and `span.SetStatus`. -/
def modifySpan (st : TraceState) (id : Nat) (f : Span → Span) : TraceState :=
  match st.spans[id]? with
  | none => st
  | some sp => { st with spans := st.spans.set id (f sp) }

/-- What `span.End()` does to the span at the current clock: records the
clock as the end timestamp; the SDK ignores an `End` on an already-ended
span, which the `endTime` guard reproduces. -/
def endSpanModifier (clock : Nat) (sp : Span) : Span :=
  match sp.endTime with
  | some _ => sp
  | none => { sp with endTime := some clock }

/-- Embeds `span.End()` (deferred at src/main.go lines 148, 299, 336). -/
def endSpan (st : TraceState) (id : Nat) : TraceState :=
  modifySpan st id (endSpanModifier st.clock)

/-- Embeds `span.SetAttributes(...)` (src/main.go lines 317-320, 356-359):
appends attributes to the span. -/
def setSpanAttrs (st : TraceState) (id : Nat) (newAttrs : AttrSet) :
    TraceState :=
  modifySpan st id fun sp => { sp with attrs := sp.attrs ++ newAttrs }

/-- Embeds `span.SetStatus(code, msg)` (src/main.go lines 157, 164). -/
def setSpanStatus (st : TraceState) (id : Nat) (s : SpanStatus) : TraceState :=
  modifySpan st id fun sp => { sp with status := s }

/-! ### Arbitrary interleavings of the span operations

For the timestamp invariants we consider every sequence of the operations
the program can perform on the trace state, not just the demo's fixed
sequence. -/

/-- One operation on the trace state. -/
inductive TraceOp where
  | tick (d : Nat)
  | start (name : String) (ctx : Option Nat) (attrs : AttrSet)
  | endOp (id : Nat)
  | setAttrs (id : Nat) (attrs : AttrSet)
  | setStatus (id : Nat) (s : SpanStatus)
deriving DecidableEq, Repr

/-- Executes one operation. -/
def stepTrace (st : TraceState) : TraceOp → TraceState
  | .tick d => st.tick d
  | .start n c a => (startSpan st c n a).1
  | .endOp i => endSpan st i
  | .setAttrs i a => setSpanAttrs st i a
  | .setStatus i s => setSpanStatus st i s

/-- A context handed to `Start` can only carry a span that already exists:
contexts in the source arise solely from earlier `tracer.Start` returns. -/
def validOp (st : TraceState) : TraceOp → Bool
  | .start _ c _ =>
    match c with
    | none => true
    | some p => decide (p < st.spans.length)
  | _ => true

/-- Executes a sequence of operations. -/
def runTrace (st : TraceState) : List TraceOp → TraceState
  | [] => st
  | op :: ops => runTrace (stepTrace st op) ops

/-- Every operation in the sequence is valid in the state it runs in. -/
def validSeq (st : TraceState) : List TraceOp → Bool
  | [] => true
  | op :: ops => validOp st op && validSeq (stepTrace st op) ops

/-! ## Log records and metric events (`logRecord`, instrument calls) -/

/-- Log severity as used by the source (`otellog.SeverityDebug` etc.),
ordered debug < info < warn < error. -/
inductive LogSeverity where
  | debug
  | info
  | warn
  | error
deriving DecidableEq, Repr

/-- One emitted log record (`logRecord` helper, src/main.go lines 179-186):
timestamp of call, body, severity, attributes, and the span active in the
supplied context for correlation. -/
structure LogRecord where
  timestamp : Nat
  body : String
  severity : LogSeverity
  attrs : AttrSet
  spanCtx : Option Nat
deriving DecidableEq, Repr

/-- One synchronous metric instrument call: `Int64Counter.Add`,
`Int64UpDownCounter.Add`, or `Float64Histogram.Record` (histogram values
are embedded as exact millisecond integers instead of float seconds). -/
inductive MetricEvent where
  | counterAdd (instrument : String) (value : Int) (attrs : AttrSet)
  | updownAdd (instrument : String) (value : Int) (attrs : AttrSet)
  | histRecord (instrument : String) (value : Nat) (attrs : AttrSet)
deriving DecidableEq, Repr

/-- The whole emission session: trace state plus the buffered log records
and metric events, in emission order. -/
structure SessionState where
  trace : TraceState
  logs : List LogRecord
  metrics : List MetricEvent
deriving DecidableEq, Repr

/-- Fresh session at process start. -/
def SessionState.init : SessionState := ⟨TraceState.init, [], []⟩

/-- Embeds the `logRecord` helper (src/main.go lines 179-186): builds a
record stamped with the current time and correlated to the context's
active span, and hands it to the logger. -/
def logRecord (st : SessionState) (ctx : Option Nat) (message : String)
    (severity : LogSeverity) (attrs : AttrSet) : SessionState :=
  { st with
      logs := st.logs ++
        [{ timestamp := st.trace.clock, body := message, severity := severity,
           attrs := attrs, spanCtx := ctx }] }

/-- `requestCounter.Add(ctx, v, attrs)`. -/
def recordCounter (st : SessionState) (instrument : String) (v : Int)
    (attrs : AttrSet) : SessionState :=
  { st with metrics := st.metrics ++ [.counterAdd instrument v attrs] }

/-- `activeConnections.Add(ctx, v, attrs)`. -/
def recordUpDown (st : SessionState) (instrument : String) (v : Int)
    (attrs : AttrSet) : SessionState :=
  { st with metrics := st.metrics ++ [.updownAdd instrument v attrs] }

/-- `requestDuration.Record(ctx, v, attrs)` with `v` in milliseconds. -/
def recordHist (st : SessionState) (instrument : String) (v : Nat)
    (attrs : AttrSet) : SessionState :=
  { st with metrics := st.metrics ++ [.histRecord instrument v attrs] }

/-- `time.Sleep` inside the session. -/
def sleep (st : SessionState) (d : Nat) : SessionState :=
  { st with trace := st.trace.tick d }

/-! ## Shutdown sequence of `main` (src/main.go lines 55-81)

`main` registers three deferred shutdown closures (trace lines 55-59, log
lines 66-70, metric lines 77-81).  Each calls `Shutdown` and on error only
`log.Printf`s it; none calls `log.Fatalf` or panics.  Go runs deferred
closures in LIFO order, so the metric provider shuts down first, then log,
then trace. -/

/-- Identifies the three providers whose shutdown is deferred in `main`. -/
inductive ProviderKind where
  | traceP
  | logP
  | metricP
deriving DecidableEq, Repr

/-- Runs the deferred shutdown closures of `main` in LIFO registration
order.  Input: which providers' `Shutdown` returns an error (draining
failed).  Output: the providers whose shutdown step ran, the error messages
logged, and whether the process aborted during shutdown. -/
def runDeferredShutdowns (traceErr logErr metricErr : Bool) :
    List ProviderKind × List ProviderKind × Bool :=
  let steps : List (ProviderKind × Bool) :=
    [(.metricP, metricErr), (.logP, logErr), (.traceP, traceErr)]
  (steps.map Prod.fst, (steps.filter Prod.snd).map Prod.fst, false)

/-! ## The demonstration flow (`simulateWork` and the demo part of `main`)

`rand.Intn(n)` draws are supplied as inputs `dbRand`, `apiRand` and mapped
into `[0, n)` with `% n`, mirroring the range of the Go call.  Go runs
deferred calls in LIFO registration order when the function returns; the
deferred calls are executed at the return point below in that order. -/

/-- Embeds `simulateWork` (src/main.go lines 273-384), statement by
statement.  Returns the session state after the function (deferred calls
included) and the function's return value; the only `return` in the source
is `return nil` (line 383). -/
def simulateWork (st0 : SessionState) (ctx0 : Option Nat)
    (dbRand apiRand : Nat) : SessionState × Except String Unit :=
  -- lines 278-280: activeConnections.Add(+1, connection_type=database)
  let st := recordUpDown st0 "active_connections" 1
    [strA "connection_type" "database"]
  -- lines 286-291: requestStart := time.Now(); requestCounter.Add(+1, ...)
  let st := recordCounter st "requests_total" 1
    [strA "method" "GET", strA "endpoint" "/api/users",
     strA "status" "processing"]
  -- lines 293-298: ctx, dbSpan := tracer.Start(ctx, "database-query", ...)
  let r1 := startSpan st.trace ctx0 "database-query"
    [strA "db.system" "postgresql", strA "db.name" "userdb",
     strA "db.operation" "SELECT"]
  let ctx1 := r1.2.1
  let dbSpan := r1.2.2
  let st := { st with trace := r1.1 }
  -- lines 302-304: debug log
  let st := logRecord st ctx1 "Executing database query" .debug
    [strA "component" "database",
     strA "query" "SELECT * FROM users WHERE id = ?"]
  -- lines 307-308: dbDuration := (80 + rand.Intn(40)) ms; time.Sleep
  let dbDuration := 80 + dbRand % 40
  let st := sleep st dbDuration
  -- lines 311-314: requestDuration.Record(dbDuration, ...)
  let st := recordHist st "request_duration_seconds" dbDuration
    [strA "operation" "database_query", strA "db.system" "postgresql"]
  -- lines 317-320: dbSpan.SetAttributes(...)
  let st := { st with trace := (setSpanAttrs st.trace dbSpan
    [intA "db.rows_affected" 1, intA "db.query_time" dbDuration]) }
  -- lines 323-325: activeConnections.Add(+1, connection_type=http_client)
  let st := recordUpDown st "active_connections" 1
    [strA "connection_type" "http_client"]
  -- lines 331-335: ctx, apiSpan := tracer.Start(ctx, "external-api-call", ...)
  let r2 := startSpan st.trace ctx1 "external-api-call"
    [strA "http.method" "GET", strA "http.url" "https://api.example.com/data"]
  let ctx2 := r2.2.1
  let apiSpan := r2.2.2
  let st := { st with trace := r2.1 }
  -- lines 339-342: info log
  let st := logRecord st ctx2 "Making external API call" .info
    [strA "component" "api-client", strA "url" "https://api.example.com/data",
     strA "method" "GET"]
  -- lines 345-346: apiDuration := (150 + rand.Intn(100)) ms; time.Sleep
  let apiDuration := 150 + apiRand % 100
  let st := sleep st apiDuration
  -- lines 349-353: requestDuration.Record(apiDuration, ...)
  let st := recordHist st "request_duration_seconds" apiDuration
    [strA "operation" "api_call", strA "http.method" "GET",
     intA "http.status_code" 200]
  -- lines 356-359: apiSpan.SetAttributes(...)
  let st := { st with trace := (setSpanAttrs st.trace apiSpan
    [intA "http.status_code" 200, intA "http.response_time" apiDuration]) }
  -- lines 362-365: info log
  let st := logRecord st ctx2 "API call completed successfully" .info
    [strA "component" "api-client", intA "status_code" 200,
     intA "response_time" apiDuration]
  -- lines 368-374: totalDuration := time.Since(requestStart); Record
  let totalDuration := dbDuration + apiDuration
  let st := recordHist st "request_duration_seconds" totalDuration
    [strA "operation" "total_request", strA "method" "GET",
     strA "endpoint" "/api/users", strA "status" "success"]
  -- lines 377-381: requestCounter.Add(+1, ..., status=success)
  let st := recordCounter st "requests_total" 1
    [strA "method" "GET", strA "endpoint" "/api/users",
     strA "status" "success"]
  -- line 383: return nil; deferred calls now run in LIFO order:
  -- apiSpan.End (line 336), Add(-1, http_client) (line 326),
  -- dbSpan.End (line 299), Add(-1, database) (line 281)
  let st := { st with trace := endSpan st.trace apiSpan }
  let st := recordUpDown st "active_connections" (-1)
    [strA "connection_type" "http_client"]
  let st := { st with trace := endSpan st.trace dbSpan }
  let st := recordUpDown st "active_connections" (-1)
    [strA "connection_type" "database"]
  (st, Except.ok ())

/-- Embeds the demonstration part of `main` (src/main.go lines 142-176 and
the deferred `rootSpan.End()`): root span creation with the context
reassigned, start log, the `simulateWork` call, the error/success branch
on its result (lines 156-170), the 5-second sleep (line 175), and the
deferred end of the root span at `main` exit. -/
def mainDemoFlow (dbRand apiRand : Nat) : SessionState :=
  let st0 := SessionState.init
  -- lines 143-148: ctx, rootSpan := tracer.Start(ctx, "main-operation", ...)
  let r0 := startSpan st0.trace none "main-operation"
    [strA "operation.type" "demo", strA "user.id" "12345"]
  let ctx1 := r0.2.1
  let rootSpan := r0.2.2
  let st := { st0 with trace := r0.1 }
  -- lines 151-153: start log
  let st := logRecord st ctx1 "Starting main operation" .info
    [strA "component" "main", strA "operation" "start"]
  -- line 156: err := simulateWork(ctx, ...)
  let w := simulateWork st ctx1 dbRand apiRand
  let st := w.1
  -- lines 156-170: branch on the returned error
  let st :=
    match w.2 with
    | .error e =>
      let st := { st with trace := setSpanStatus st.trace rootSpan (.statusError e) }
      logRecord st ctx1 ("Operation failed: " ++ e) .error
        [strA "component" "main", strA "error" e]
    | .ok _ =>
      let st := { st with trace :=
        (setSpanStatus st.trace rootSpan
          (.statusOk "Operation completed successfully")) }
      logRecord st ctx1 "Operation completed successfully" .info
        [strA "component" "main", strA "operation" "complete"]
  -- line 175: time.Sleep(5 * time.Second)
  let st := sleep st 5000
  -- deferred rootSpan.End() (line 148) runs at main exit
  { st with trace := endSpan st.trace rootSpan }

/-! ## Counter aggregation (SDK sum aggregation)

The aggregation itself runs inside the metric SDK the program delegates
to; the spec states its contract (one running total per unique attribute
set, values added).  It is modelled as an association list keyed by the
attribute set, in first-seen order, fed by the `counterAdd` events the
embedded program emits. -/

/-- Adds `v` to the running total for `attrs`, creating the data point if
the attribute set has not been seen. -/
def addTotal : List (AttrSet × Int) → AttrSet → Int → List (AttrSet × Int)
  | [], attrs, v => [(attrs, v)]
  | (a, t) :: rest, attrs, v =>
    if a = attrs then (a, t + v) :: rest
    else (a, t) :: addTotal rest attrs v

/-- The aggregated total for one attribute set, if that data point exists. -/
def getTotal : List (AttrSet × Int) → AttrSet → Option Int
  | [], _ => none
  | (a, t) :: rest, attrs => if a = attrs then some t else getTotal rest attrs

/-- Aggregation state of one counter instrument after the given emission
sequence: every `counterAdd` on that instrument is folded into the per
attribute-set totals. -/
def aggregateCounter (events : List MetricEvent) (instrument : String) :
    List (AttrSet × Int) :=
  events.foldl
    (fun totals e =>
      match e with
      | .counterAdd i v a => if i = instrument then addTotal totals a v else totals
      | _ => totals)
    []

/-! ## Up-down counter contributions (claim about `active_connections`) -/

/-- The sequence of deltas recorded on the up-down counter `instrument`
with exactly the attribute set `attrs`, in emission order. -/
def upDownDeltas (events : List MetricEvent) (instrument : String)
    (attrs : AttrSet) : List Int :=
  events.filterMap fun e =>
    match e with
    | .updownAdd i v a => if i = instrument ∧ a = attrs then some v else none
    | _ => none

/-- Net total contributed to one attribute-set data point of an up-down
counter by the given emission sequence. -/
def netUpDown (events : List MetricEvent) (instrument : String)
    (attrs : AttrSet) : Int :=
  (upDownDeltas events instrument attrs).sum

/-! ## Periodic metric reader and the asynchronous gauge

The reader is SDK code configured at src/main.go lines 264-268 with
`sdkmetric.WithInterval(10*time.Second)`.  Its collection schedule is the
contract the spec states: one collection per elapsed interval plus one
final collection during shutdown, and each collection invokes every
registered gauge callback exactly once. -/

/-- The `10*time.Second` interval passed to the periodic reader at
src/main.go line 266, in seconds. -/
def metricExportIntervalSeconds : Nat := 10

/-- Modelled from the spec: the collection times of the periodic metric
reader (SDK code, not in src/) over a run of `runTime` seconds — one tick
at each whole multiple of `interval` that elapses, plus one final
collection at shutdown. -/
def gaugeCollectionTimes (interval runTime : Nat) : List Nat :=
  ((List.range (runTime / interval)).map fun k => (k + 1) * interval) ++
    [runTime]

/-- Modelled from the spec: every collection invokes the registered gauge
callback exactly once, so the invocation count equals the number of
collections. -/
def gaugeCallbackInvocations (interval runTime : Nat) : Nat :=
  (gaugeCollectionTimes interval runTime).length

/-- Embeds the `memory_usage_bytes` gauge callback registered at
src/main.go lines 129-136: simulates 50-100 MB of heap usage from the
random draw and observes it with the `memory_type=heap` attribute. -/
def memoryGaugeCallback (randDraw : Nat) : Int × AttrSet :=
  (((1024 * 1024 * (50 + randDraw % 50) : Nat) : Int),
   [strA "memory_type" "heap"])

/-- The synchronous (push) emissions that target `instrument`: a gauge is
pull-based, so no event in the program's emission sequence may target it. -/
def pushesToInstrument (events : List MetricEvent) (instrument : String) :
    List MetricEvent :=
  events.filter fun e =>
    match e with
    | .counterAdd i _ _ => i == instrument
    | .updownAdd i _ _ => i == instrument
    | .histRecord i _ _ => i == instrument

/-! ## Provider shutdown (SDK `Shutdown` semantics)

`main` only calls each provider's `Shutdown` (src/main.go lines 55-81);
the `Shutdown` implementation is SDK code, not in src/. -/

/-- Modelled from the spec: the state of one producer with respect to
shutdown — its buffered batches and whether shutdown has completed. -/
structure ProviderShutdownState where
  buffered : List Nat
  isShutdown : Bool
deriving DecidableEq, Repr

/-- Result of one `Shutdown` call. -/
inductive ShutdownResult where
  | ok
  | drainError
deriving DecidableEq, Repr

/-- Modelled from the spec: `Shutdown(timeout)` flushes the buffer and
reports `drainError` if the exporter fails to drain within the timeout
(`drainSucceeds = false`); a `Shutdown` on an already-shut-down producer
is a no-op returning success. -/
def providerShutdown (drainSucceeds : Bool) (s : ProviderShutdownState) :
    ProviderShutdownState × ShutdownResult :=
  if s.isShutdown then (s, .ok)
  else if drainSucceeds then ({ buffered := [], isShutdown := true }, .ok)
  else ({ s with isShutdown := true }, .drainError)

/-! ## Well-formedness of the trace state -/

/-- A span is well formed in a state: it started no later than now, its
end (if recorded) lies between its start and now, and its parent exists
and started no later than it did. -/
def SpanWF (st : TraceState) (sp : Span) : Prop :=
  sp.startTime ≤ st.clock ∧
  (∀ e, sp.endTime = some e → sp.startTime ≤ e ∧ e ≤ st.clock) ∧
  (∀ p, sp.parent = some p →
    ∃ ps, st.spans[p]? = some ps ∧ ps.startTime ≤ sp.startTime)

/-- Every span of the state is well formed. -/
def TraceInv (st : TraceState) : Prop := ∀ sp ∈ st.spans, SpanWF st sp

/-- The metric events `simulateWork` emits, independent of the starting
session (the function only appends to the metric buffer). -/
def simulateWorkMetricEvents (dbRand apiRand : Nat) : List MetricEvent :=
  (simulateWork SessionState.init none dbRand apiRand).1.metrics

/-- A small concrete operation sequence exercising the span lifecycle:
a root span, a child started 5 ms later from the root's context, both
ended. -/
def wOps : List TraceOp :=
  [.start "root" none [], .tick 5, .start "child" (some 0) [], .tick 3,
   .endOp 1, .endOp 0]

/-- The child span as `wOps` leaves it. -/
def wSpan : Span :=
  { name := "child", parent := some 0, startTime := 5, endTime := some 8,
    attrs := [], status := .unset }

theorem traceInv_init : TraceInv TraceState.init := by
  intro sp h
  simp [TraceState.init] at h

theorem modifySpan_clock (st : TraceState) (id : Nat) (f : Span → Span) :
    (modifySpan st id f).clock = st.clock := by
  unfold modifySpan
  cases st.spans[id]? <;> rfl

theorem modifySpan_spans_lookup (st : TraceState) (id : Nat) (f : Span → Span)
    (j : Nat) :
    (modifySpan st id f).spans[j]? =
      if id = j then (st.spans[j]?).map f else st.spans[j]? := by
  unfold modifySpan
  cases h : st.spans[id]? with
  | none =>
    by_cases hj : id = j
    · subst hj
      simp [h]
    · simp [hj]
  | some sp =>
    show (st.spans.set id (f sp))[j]? =
      if id = j then (st.spans[j]?).map f else st.spans[j]?
    rw [List.getElem?_set]
    by_cases hj : id = j
    · subst hj
      have hlt : id < st.spans.length := (List.getElem?_eq_some.mp h).1
      simp [h, hlt]
    · simp [hj]

theorem parent_lookup_modifySpan (st : TraceState) (id : Nat) (f : Span → Span)
    (hstart : ∀ sp, (f sp).startTime = sp.startTime)
    (p : Nat) (ps : Span) (hps : st.spans[p]? = some ps) :
    ∃ ps2, (modifySpan st id f).spans[p]? = some ps2 ∧
      ps2.startTime = ps.startTime := by
  by_cases hpid : id = p
  · subst hpid
    refine ⟨f ps, ?_, hstart ps⟩
    rw [modifySpan_spans_lookup, if_pos rfl, hps]
    rfl
  · refine ⟨ps, ?_, rfl⟩
    rw [modifySpan_spans_lookup, if_neg hpid]
    exact hps

theorem traceInv_modifySpan (st : TraceState) (id : Nat) (f : Span → Span)
    (hstart : ∀ sp, (f sp).startTime = sp.startTime)
    (hparent : ∀ sp, (f sp).parent = sp.parent)
    (hend : ∀ sp e, (f sp).endTime = some e → sp.endTime = some e ∨ e = st.clock)
    (hinv : TraceInv st) : TraceInv (modifySpan st id f) := by
  intro spm hmem
  obtain ⟨j, hj⟩ := List.mem_iff_getElem?.mp hmem
  rw [modifySpan_spans_lookup] at hj
  have hclock := modifySpan_clock st id f
  by_cases hij : id = j
  · rw [if_pos hij] at hj
    cases hsp : st.spans[j]? with
    | none =>
      rw [hsp] at hj
      simp at hj
    | some sp0 =>
      rw [hsp] at hj
      obtain ⟨hw1, hw2, hw3⟩ := hinv sp0 (List.mem_iff_getElem?.mpr ⟨j, hsp⟩)
      have hj2 : spm = f sp0 := (Option.some_inj.mp hj).symm
      subst hj2
      refine ⟨?_, ?_, ?_⟩
      · rw [hclock, hstart]
        exact hw1
      · intro e he
        rcases hend sp0 e he with h1 | h1
        · rw [hclock, hstart]
          exact hw2 e h1
        · rw [hclock, hstart, h1]
          exact ⟨hw1, le_refl _⟩
      · intro p hp
        rw [hparent] at hp
        obtain ⟨ps, hps, hle⟩ := hw3 p hp
        obtain ⟨ps2, hps2, hse⟩ := parent_lookup_modifySpan st id f hstart p ps hps
        refine ⟨ps2, hps2, ?_⟩
        rw [hse, hstart]
        exact hle
  · rw [if_neg hij] at hj
    obtain ⟨hw1, hw2, hw3⟩ := hinv spm (List.mem_iff_getElem?.mpr ⟨j, hj⟩)
    refine ⟨?_, ?_, ?_⟩
    · rw [hclock]
      exact hw1
    · rw [hclock]
      exact hw2
    · intro p hp
      obtain ⟨ps, hps, hle⟩ := hw3 p hp
      obtain ⟨ps2, hps2, hse⟩ := parent_lookup_modifySpan st id f hstart p ps hps
      refine ⟨ps2, hps2, ?_⟩
      rw [hse]
      exact hle

theorem traceInv_tick (st : TraceState) (d : Nat) (hinv : TraceInv st) :
    TraceInv (st.tick d) := by
  intro sp hmem
  obtain ⟨hw1, hw2, hw3⟩ := hinv sp hmem
  refine ⟨le_trans hw1 (Nat.le_add_right _ _), ?_, hw3⟩
  intro e he
  exact ⟨(hw2 e he).1, le_trans (hw2 e he).2 (Nat.le_add_right _ _)⟩

theorem endSpanModifier_startTime (clock : Nat) (sp : Span) :
    (endSpanModifier clock sp).startTime = sp.startTime := by
  unfold endSpanModifier
  cases sp.endTime <;> rfl

theorem endSpanModifier_parent (clock : Nat) (sp : Span) :
    (endSpanModifier clock sp).parent = sp.parent := by
  unfold endSpanModifier
  cases sp.endTime <;> rfl

theorem endSpanModifier_endTime (clock : Nat) (sp : Span) (e : Nat)
    (he : (endSpanModifier clock sp).endTime = some e) :
    sp.endTime = some e ∨ e = clock := by
  unfold endSpanModifier at he
  cases h : sp.endTime with
  | some x =>
    rw [h] at he
    have he2 : sp.endTime = some e := he
    rw [h] at he2
    exact Or.inl he2
  | none =>
    rw [h] at he
    right
    have hsc : some clock = some e := he
    exact (Option.some_inj.mp hsc).symm

theorem traceInv_startSpan (st : TraceState) (ctx : Option Nat)
    (name : String) (attrs : AttrSet)
    (hctx : ∀ p, ctx = some p → p < st.spans.length)
    (hinv : TraceInv st) : TraceInv (startSpan st ctx name attrs).1 := by
  intro sp hmem
  have hmem2 : sp ∈ st.spans ++ [newSpanOf st ctx name attrs] := hmem
  rcases List.mem_append.mp hmem2 with hold | hnew
  · obtain ⟨hw1, hw2, hw3⟩ := hinv sp hold
    refine ⟨hw1, hw2, ?_⟩
    intro p hp
    obtain ⟨ps, hps, hle⟩ := hw3 p hp
    have hlt : p < st.spans.length := (List.getElem?_eq_some.mp hps).1
    refine ⟨ps, ?_, hle⟩
    show (st.spans ++ [newSpanOf st ctx name attrs])[p]? = some ps
    rw [List.getElem?_append_left hlt]
    exact hps
  · have hsp : sp = newSpanOf st ctx name attrs := by
      simpa using hnew
    subst hsp
    refine ⟨le_refl _, ?_, ?_⟩
    · intro e he
      simp [newSpanOf] at he
    · intro p hp
      have hp2 : ctx = some p := hp
      have hlt : p < st.spans.length := hctx p hp2
      have hget : st.spans[p]? = some (st.spans.get ⟨p, hlt⟩) :=
        List.getElem?_eq_getElem hlt
      have hmem3 : st.spans.get ⟨p, hlt⟩ ∈ st.spans :=
        List.get_mem st.spans p hlt
    -- a span already present started no later than the current clock
      refine ⟨st.spans.get ⟨p, hlt⟩, ?_, (hinv _ hmem3).1⟩
      show (st.spans ++ [newSpanOf st ctx name attrs])[p]? = some _
      rw [List.getElem?_append_left hlt]
      exact hget

theorem traceInv_step (st : TraceState) (op : TraceOp)
    (hv : validOp st op = true) (hinv : TraceInv st) :
    TraceInv (stepTrace st op) := by
  cases op with
  | tick d => exact traceInv_tick st d hinv
  | start n c a =>
    refine traceInv_startSpan st c n a ?_ hinv
    intro p hp
    subst hp
    simp only [validOp] at hv
    exact of_decide_eq_true hv
  | endOp i =>
    exact traceInv_modifySpan st i _ (endSpanModifier_startTime st.clock)
      (endSpanModifier_parent st.clock) (endSpanModifier_endTime st.clock) hinv
  | setAttrs i a =>
    refine traceInv_modifySpan st i _ ?_ ?_ ?_ hinv
    · intro sp; rfl
    · intro sp; rfl
    · intro sp e he; exact Or.inl he
  | setStatus i s =>
    refine traceInv_modifySpan st i _ ?_ ?_ ?_ hinv
    · intro sp; rfl
    · intro sp; rfl
    · intro sp e he; exact Or.inl he

theorem traceInv_run (ops : List TraceOp) : ∀ st : TraceState,
    TraceInv st → validSeq st ops = true → TraceInv (runTrace st ops) := by
  induction ops with
  | nil =>
    intro st h _
    exact h
  | cons op ops ih =>
    intro st h hv
    rw [validSeq, Bool.and_eq_true] at hv
    exact ih _ (traceInv_step st op hv.1 h) hv.2

/-! ## Aggregation lemmas -/

theorem getTotal_addTotal_same (st : List (AttrSet × Int)) (attrs : AttrSet)
    (v : Int) :
    getTotal (addTotal st attrs v) attrs =
      some ((getTotal st attrs).getD 0 + v) := by
  induction st with
  | nil => simp [addTotal, getTotal]
  | cons head rest ih =>
    obtain ⟨a, t⟩ := head
    by_cases h : a = attrs
    · subst h
      simp [addTotal, getTotal]
    · simp [addTotal, getTotal, h, ih]

theorem getTotal_addTotal_ne (st : List (AttrSet × Int)) (attrs b : AttrSet)
    (v : Int) (hne : b ≠ attrs) :
    getTotal (addTotal st attrs v) b = getTotal st b := by
  induction st with
  | nil => simp [addTotal, getTotal, Ne.symm hne]
  | cons head rest ih =>
    obtain ⟨a, t⟩ := head
    by_cases h : a = attrs
    · subst h
      simp [addTotal, getTotal, Ne.symm hne]
    · simp [addTotal, getTotal, h, ih]

theorem upDownDeltas_append (xs ys : List MetricEvent) (i : String)
    (a : AttrSet) :
    upDownDeltas (xs ++ ys) i a = upDownDeltas xs i a ++ upDownDeltas ys i a := by
  simp [upDownDeltas, List.filterMap_append]

theorem netUpDown_append (xs ys : List MetricEvent) (i : String) (a : AttrSet) :
    netUpDown (xs ++ ys) i a = netUpDown xs i a + netUpDown ys i a := by
  simp [netUpDown, upDownDeltas_append, List.sum_append]

theorem simulateWork_metrics (st0 : SessionState) (ctx0 : Option Nat)
    (d r : Nat) :
    (simulateWork st0 ctx0 d r).1.metrics =
      st0.metrics ++ simulateWorkMetricEvents d r := by
  simp [simulateWork, simulateWorkMetricEvents, recordCounter, recordUpDown,
    recordHist, logRecord, sleep, SessionState.init, List.append_assoc]

/-! ## The claims -/

/-- C1: against an unreachable endpoint under a bounded connect timeout,
provider setup fails with an initialization error within that timeout
(never later than the deadline), `main` aborts startup (`log.Fatalf`),
and no telemetry is emitted. -/
theorem initializationFailureIsFatalAndBounded (t : Nat) (envValue : String) :
    ∃ elapsed, elapsed ≤ t ∧
      setupTraceProvider false (some t) (resolveEndpoint envValue) =
        .initError elapsed ∧
      mainStartup false (some t) envValue = .aborted elapsed ∧
      telemetryEmittedAfterStartup (mainStartup false (some t) envValue) =
        false :=
  ⟨t, le_refl t, rfl, rfl, rfl⟩

set_option maxHeartbeats 1600000 in
/-- C2: counter aggregation keeps one running total per unique attribute
set — two records with the same attributes sum into one data point, two
records with distinct attribute sets stay independent; in the demo,
`requests_total` ends with the `status=processing` and `status=success`
points each at 1, never a merged 2. -/
theorem counterAggregationPerAttributeSet
    (st : List (AttrSet × Int)) (attrs a b : AttrSet) (v1 v2 v : Int)
    (d r : Nat) (hab : a ≠ b) :
    getTotal (addTotal (addTotal st attrs v1) attrs v2) attrs =
      some ((getTotal st attrs).getD 0 + v1 + v2) ∧
    addTotal (addTotal [] attrs v1) attrs v2 = [(attrs, v1 + v2)] ∧
    addTotal (addTotal [] a v1) b v2 = [(a, v1), (b, v2)] ∧
    getTotal (addTotal st a v) b = getTotal st b ∧
    aggregateCounter ((mainDemoFlow d r).metrics) "requests_total" =
      [([strA "method" "GET", strA "endpoint" "/api/users",
         strA "status" "processing"], 1),
       ([strA "method" "GET", strA "endpoint" "/api/users",
         strA "status" "success"], 1)] := by
  refine ⟨?_, by simp [addTotal], by simp [addTotal, hab], ?_, rfl⟩
  · rw [getTotal_addTotal_same, getTotal_addTotal_same]
    simp [add_assoc]
  · exact getTotal_addTotal_ne st a b v (Ne.symm hab)

theorem counterAggregationPerAttributeSet_witness :
    ([strA "status" "processing"] : AttrSet) ≠ [strA "status" "success"] ∧
    addTotal (addTotal [] [strA "status" "processing"] 1)
        [strA "status" "success"] 1 =
      [([strA "status" "processing"], 1), ([strA "status" "success"], 1)] :=
  ⟨by decide,
   (counterAggregationPerAttributeSet [] [strA "k" "v"]
      [strA "status" "processing"] [strA "status" "success"] 1 1 5 0 0
      (by decide)).2.2.1⟩

/-- C3: in every valid run of the span operations from process start,
every span's end timestamp (once recorded) is at least its start
timestamp, and every child span starts no earlier than its parent. -/
theorem spanTimestampOrdering (ops : List TraceOp) (sp : Span)
    (h : validSeq TraceState.init ops = true)
    (hmem : sp ∈ (runTrace TraceState.init ops).spans) :
    (∀ e, sp.endTime = some e → sp.startTime ≤ e) ∧
    (∀ p ps, sp.parent = some p →
      (runTrace TraceState.init ops).spans[p]? = some ps →
      ps.startTime ≤ sp.startTime) := by
  have hinv := traceInv_run ops TraceState.init traceInv_init h
  obtain ⟨_, hw2, hw3⟩ := hinv sp hmem
  refine ⟨fun e he => (hw2 e he).1, ?_⟩
  intro p ps hp hps
  obtain ⟨ps2, hps2, hle⟩ := hw3 p hp
  rw [hps] at hps2
  obtain rfl := Option.some_inj.mp hps2
  exact hle

theorem spanTimestampOrdering_witness :
    validSeq TraceState.init wOps = true ∧
    wSpan ∈ (runTrace TraceState.init wOps).spans ∧
    ((∀ e, wSpan.endTime = some e → wSpan.startTime ≤ e) ∧
     (∀ p ps, wSpan.parent = some p →
       (runTrace TraceState.init wOps).spans[p]? = some ps →
       ps.startTime ≤ wSpan.startTime)) :=
  ⟨by decide, by decide,
   spanTimestampOrdering wOps wSpan (by decide) (by decide)⟩

/-- C4: the export endpoint is resolved once from the environment
override (used verbatim when non-empty) or the compiled-in default
`localhost:4317`, and the same resolved endpoint is handed to all three
provider setups. -/
theorem endpointResolution (envValue : String) (h : envValue ≠ "") :
    providerEndpoints envValue = (envValue, envValue, envValue) ∧
    providerEndpoints "" =
      ("localhost:4317", "localhost:4317", "localhost:4317") ∧
    (∀ e2, providerEndpoints e2 =
      (resolveEndpoint e2, resolveEndpoint e2, resolveEndpoint e2)) ∧
    otelCollectorEndpoint = "localhost:4317" := by
  refine ⟨?_, rfl, fun e2 => rfl, rfl⟩
  simp [providerEndpoints, resolveEndpoint, h]

theorem endpointResolution_witness :
    ("collector.example:4317" : String) ≠ "" ∧
    providerEndpoints "collector.example:4317" =
      ("collector.example:4317", "collector.example:4317",
       "collector.example:4317") :=
  ⟨by decide, (endpointResolution "collector.example:4317" (by decide)).1⟩

/-- C5: a drain failure in any provider's shutdown is non-fatal — all
three deferred shutdown steps still run (metric, then log, then trace),
the failures are only logged, and the process does not abort. -/
theorem shutdownDrainErrorsNonFatal (traceErr logErr metricErr : Bool) :
    runDeferredShutdowns traceErr logErr metricErr =
      ([.metricP, .logP, .traceP],
       ((if metricErr then [ProviderKind.metricP] else []) ++
        (if logErr then [ProviderKind.logP] else []) ++
        (if traceErr then [ProviderKind.traceP] else [])),
       false) := by
  cases traceErr <;> cases logErr <;> cases metricErr <;> rfl

/-- C6: a `Shutdown` issued after an already-successful `Shutdown` is a
no-op that returns success and leaves the state unchanged. -/
theorem shutdownIdempotentAfterSuccess (s : ProviderShutdownState)
    (d1 d2 : Bool) (h : (providerShutdown d1 s).2 = .ok) :
    providerShutdown d2 (providerShutdown d1 s).1 =
      ((providerShutdown d1 s).1, .ok) := by
  unfold providerShutdown at h ⊢
  by_cases hs : s.isShutdown
  · simp [hs]
  · by_cases hd : d1
    · simp [hs, hd]
    · simp [hs, hd] at h

theorem shutdownIdempotentAfterSuccess_witness :
    (providerShutdown true ⟨[7], false⟩).2 = .ok ∧
    providerShutdown false (providerShutdown true ⟨[7], false⟩).1 =
      ((providerShutdown true ⟨[7], false⟩).1, .ok) :=
  ⟨by decide,
   shutdownIdempotentAfterSuccess ⟨[7], false⟩ true false (by decide)⟩

set_option maxHeartbeats 1600000 in
/-- C7: the gauge is pull-based — no push emission in the demo targets
it; its value comes only from the registered callback, invoked once per
collection, with one collection per elapsed 10-second interval plus one
final collection at shutdown. -/
theorem gaugePullBasedPeriodicExport (d r runTime : Nat) :
    pushesToInstrument ((mainDemoFlow d r).metrics) "memory_usage_bytes" =
      [] ∧
    gaugeCallbackInvocations metricExportIntervalSeconds runTime =
      runTime / metricExportIntervalSeconds + 1 ∧
    (memoryGaugeCallback r).2 = [strA "memory_type" "heap"] ∧
    metricExportIntervalSeconds = 10 := by
  refine ⟨rfl, ?_, rfl, rfl⟩
  simp [gaugeCallbackInvocations, gaugeCollectionTimes]

set_option maxHeartbeats 1600000 in
/-- C8: `simulateWork` returns nil on every execution, so `main` always
takes the success branch — the root span's status is set to Ok and the
success log is emitted, while the severity-error log never is. -/
theorem simulateWorkAlwaysSucceeds (st0 : SessionState) (ctx0 : Option Nat)
    (d r : Nat) :
    (simulateWork st0 ctx0 d r).2 = Except.ok () ∧
    ((mainDemoFlow d r).trace.spans[0]?).map Span.status =
      some (.statusOk "Operation completed successfully") ∧
    (mainDemoFlow d r).logs.map LogRecord.severity =
      [.info, .debug, .info, .info, .info] ∧
    (mainDemoFlow d r).logs.map LogRecord.body =
      ["Starting main operation", "Executing database query",
       "Making external API call", "API call completed successfully",
       "Operation completed successfully"] :=
  ⟨rfl, rfl, rfl, rfl⟩

set_option maxHeartbeats 1600000 in
/-- C9: the demo's three spans form a chain of depth three —
`external-api-call` is a child of `database-query`, which is a child of
the root `main-operation` — not a root with two siblings. -/
theorem demoSpansFormChainDepthThree (d r : Nat) :
    (mainDemoFlow d r).trace.spans.map Span.name =
      ["main-operation", "database-query", "external-api-call"] ∧
    (mainDemoFlow d r).trace.spans.map Span.parent =
      [none, some 0, some 1] :=
  ⟨rfl, rfl⟩

set_option maxHeartbeats 1600000 in
/-- C10: each increment of `active_connections` in `simulateWork` is
paired with a deferred decrement under the same attribute set, so the
function's net contribution to each attribute-set total is zero. -/
theorem activeConnectionsNetZeroContribution (st0 : SessionState)
    (ctx0 : Option Nat) (d r : Nat) :
    upDownDeltas ((simulateWork SessionState.init ctx0 d r).1.metrics)
      "active_connections" [strA "connection_type" "database"] = [1, -1] ∧
    upDownDeltas ((simulateWork SessionState.init ctx0 d r).1.metrics)
      "active_connections" [strA "connection_type" "http_client"] =
        [1, -1] ∧
    netUpDown ((simulateWork st0 ctx0 d r).1.metrics) "active_connections"
        [strA "connection_type" "database"] =
      netUpDown st0.metrics "active_connections"
        [strA "connection_type" "database"] ∧
    netUpDown ((simulateWork st0 ctx0 d r).1.metrics) "active_connections"
        [strA "connection_type" "http_client"] =
      netUpDown st0.metrics "active_connections"
        [strA "connection_type" "http_client"] := by
  refine ⟨rfl, rfl, ?_, ?_⟩
  · rw [simulateWork_metrics, netUpDown_append]
    have h0 : netUpDown (simulateWorkMetricEvents d r) "active_connections"
        [strA "connection_type" "database"] = 0 := rfl
    rw [h0, add_zero]
  · rw [simulateWork_metrics, netUpDown_append]
    have h0 : netUpDown (simulateWorkMetricEvents d r) "active_connections"
        [strA "connection_type" "http_client"] = 0 := rfl
    rw [h0, add_zero]

end ClickstackClient
